import Mathlib

/-!
Shallow embedding of the Primordia simulation core (primordia.py):
the World nutrient/toxin field, the Organism behaviour, the PlayerLineage
reference genome with its evolutionary-potential currency, and the
per-tick simulation driver.  Grids are modelled as total functions
`Nat -> Nat -> Rat`; the program only ever reads or writes cells inside
the `width x height` rectangle.  Python floats are modelled as exact
rationals.  Randomness (spawn locations, mutation factors, fallback
movement, offspring offsets) is passed in explicitly as oracle data.
Python dictionaries passed by object reference (the lineage's
`base_genome` handed to spawned organisms) are modelled with an explicit
store of genome objects addressed by index.
-/

namespace Primordia

/-- The five genome traits of `PlayerLineage.base_genome`. -/
inductive Gene
  | MetabolismRate
  | MovementCost
  | BaseMetabolism
  | SensoryRange
  | ToxinBResistance
  deriving DecidableEq, Repr

/-- A genome: the fixed five-trait dictionary mapping trait name to value. -/
structure Genome where
  MetabolismRate : ℚ
  MovementCost : ℚ
  BaseMetabolism : ℚ
  SensoryRange : ℚ
  ToxinBResistance : ℚ
  deriving DecidableEq, Repr

/-- Read a trait (`genome[gene]` / `genome.get(gene, _)` on a present key). -/
def Genome.get (g : Genome) : Gene → ℚ
  | Gene.MetabolismRate => g.MetabolismRate
  | Gene.MovementCost => g.MovementCost
  | Gene.BaseMetabolism => g.BaseMetabolism
  | Gene.SensoryRange => g.SensoryRange
  | Gene.ToxinBResistance => g.ToxinBResistance

/-- Write a trait (`genome[gene] = v`). -/
def Genome.put (g : Genome) : Gene → ℚ → Genome
  | Gene.MetabolismRate, v => { g with MetabolismRate := v }
  | Gene.MovementCost, v => { g with MovementCost := v }
  | Gene.BaseMetabolism, v => { g with BaseMetabolism := v }
  | Gene.SensoryRange, v => { g with SensoryRange := v }
  | Gene.ToxinBResistance, v => { g with ToxinBResistance := v }

/-- The all-zero genome, used as an out-of-range store default. -/
def gZero : Genome :=
  { MetabolismRate := 0, MovementCost := 0, BaseMetabolism := 0,
    SensoryRange := 0, ToxinBResistance := 0 }

instance : Inhabited Genome := ⟨gZero⟩

/-- The initial `PlayerLineage.base_genome` of primordia.py. -/
def baseGenomeDefault : Genome :=
  { MetabolismRate := 1/10, MovementCost := 1/5, BaseMetabolism := 1/2,
    SensoryRange := 1, ToxinBResistance := 0 }

/-- Python `int(q)`: truncation toward zero. -/
def truncInt (q : ℚ) : ℤ := if 0 ≤ q then ⌊q⌋ else ⌈q⌉

/-- The world events of `world_event_phase`. -/
inductive WEvent
  | acid_rain
  | ice_age
  | nutrient_bloom
  deriving DecidableEq, Repr

/-- The `World` state: dimensions, diffusion rate, the two grids, the
nutrient source cell with its configured level, and the active event. -/
structure World where
  width : ℕ
  height : ℕ
  diffusion_rate : ℚ
  nutrient_a : ℕ → ℕ → ℚ
  nutrient_source_pos : ℕ × ℕ
  nutrient_amount : ℚ
  active_event : Option WEvent
  toxin_grid : ℕ → ℕ → ℚ

/-- Write one grid cell (`grid[p] = v`). -/
def setCell (g : ℕ → ℕ → ℚ) (p : ℕ × ℕ) (v : ℚ) : ℕ → ℕ → ℚ :=
  fun x y => if x = p.1 ∧ y = p.2 then v else g x y

/-- One synchronous 5-point-Laplacian diffusion step on the interior
cells `[1, w-2] x [1, h-2]` (the numpy slice update in
`update_environment`); border cells are left unchanged. -/
def diffuse (rate : ℚ) (w h : ℕ) (g : ℕ → ℕ → ℚ) : ℕ → ℕ → ℚ :=
  fun x y =>
    if 1 ≤ x ∧ x + 2 ≤ w ∧ 1 ≤ y ∧ y + 2 ≤ h then
      g x y + rate * (g (x - 1) y + g (x + 1) y + g x (y - 1) + g x (y + 1) - 4 * g x y)
    else g x y

/-- `np.clip(grid, 0, None)`. -/
def clipGrid (g : ℕ → ℕ → ℚ) : ℕ → ℕ → ℚ :=
  fun x y => max 0 (g x y)

/-- `np.any(self.toxin_grid > 0)` over the `width x height` cells. -/
def World.anyToxin (W : World) : Bool :=
  (List.range W.width).any fun x =>
    (List.range W.height).any fun y => decide (0 < W.toxin_grid x y)

/-- The nutrient grid after the diffusion, source re-pin and clip steps
of `update_environment` (before event effects). -/
def nutrientAfter (W : World) : ℕ → ℕ → ℚ :=
  clipGrid (setCell (diffuse W.diffusion_rate W.width W.height W.nutrient_a)
    W.nutrient_source_pos W.nutrient_amount)

/-- The toxin grid after the diffusion, 0.95 decay and clip steps of
`update_environment`, which run only when any toxin is present
(before event effects). -/
def toxinAfter (W : World) : ℕ → ℕ → ℚ :=
  if W.anyToxin then
    clipGrid (fun x y =>
      diffuse W.diffusion_rate W.width W.height W.toxin_grid x y * (19/20))
  else W.toxin_grid

/-- `World.update_environment`: nutrient diffusion, source re-pin, clip;
toxin diffusion, 0.95 decay and clip when any toxin is present; then the
active-event effects (`acid_rain` adds 0.005 toxin everywhere, `ice_age`
re-pins the source to half the configured amount). -/
def update_environment (W : World) : World :=
  match W.active_event with
  | some WEvent.acid_rain =>
      { W with nutrient_a := nutrientAfter W,
               toxin_grid := fun x y => toxinAfter W x y + 1/200 }
  | some WEvent.ice_age =>
      { W with nutrient_a := setCell (nutrientAfter W) W.nutrient_source_pos
                 (W.nutrient_amount / 2),
               toxin_grid := toxinAfter W }
  | some WEvent.nutrient_bloom =>
      { W with nutrient_a := nutrientAfter W, toxin_grid := toxinAfter W }
  | none => { W with nutrient_a := nutrientAfter W, toxin_grid := toxinAfter W }

/-- `World.get_nutrient`. -/
def World.get_nutrient (W : World) (x y : ℕ) : ℚ := W.nutrient_a x y

/-- `World.get_toxin`. -/
def World.get_toxin (W : World) (x y : ℕ) : ℚ := W.toxin_grid x y

/-- `World.consume_nutrient`: removes `min(current, amount)` from the
cell and returns the amount actually consumed. -/
def World.consume_nutrient (W : World) (x y : ℕ) (amount : ℚ) : ℚ × World :=
  let current := W.nutrient_a x y
  let consumed := min current amount
  (consumed, { W with nutrient_a := setCell W.nutrient_a (x, y) (current - consumed) })

-- sanity checks of the embedding on concrete values
example : truncInt (1/2 : ℚ) = 0 := by norm_num [truncInt]
example : ((-1 : ℤ) % 3) = 2 := by decide

def Wtest : World :=
  { width := 3, height := 3, diffusion_rate := 1/10,
    nutrient_a := fun x y => if x = 1 ∧ y = 1 then 10 else 0,
    nutrient_source_pos := (1, 1), nutrient_amount := 10,
    active_event := none, toxin_grid := fun _ _ => 0 }

example : Wtest.anyToxin = false := by simp [World.anyToxin, Wtest]
example : (update_environment Wtest).nutrient_a 1 1 = 10 := by
  norm_num [update_environment, nutrientAfter, World.anyToxin, diffuse, setCell, clipGrid,
    Wtest]
example : (update_environment Wtest).nutrient_a 0 0 = 0 := by
  norm_num [update_environment, nutrientAfter, World.anyToxin, diffuse, setCell, clipGrid,
    Wtest]
example : (World.consume_nutrient Wtest 1 1 3).1 = 3 := by
  norm_num [World.consume_nutrient, Wtest]
example : ((World.consume_nutrient Wtest 1 1 3).2).nutrient_a 1 1 = 7 := by
  norm_num [World.consume_nutrient, setCell, Wtest]

/-- An organism: toroidal position, its own genome object, energy and
the transient movement intent `(dx, dy)`. -/
structure Organism where
  x : ℕ
  y : ℕ
  genome : Genome
  energy : ℚ
  dx : ℤ
  dy : ℤ
  deriving DecidableEq, Repr

/-- `Organism.REPRODUCTION_ENERGY`. -/
def REPRODUCTION_ENERGY : ℚ := 150

/-- The values taken by `range(-r, r+1)` in `sense`. -/
def offsetsList (r : ℤ) : List ℤ :=
  (List.range (r + r + 1).toNat).map fun i : ℕ => (i : ℤ) - r

/-- The `(dx, dy)` pairs visited by the two nested loops of `sense`,
in visit order (outer `dx`, inner `dy`). -/
def sensePairs (r : ℤ) : List (ℤ × ℤ) :=
  (offsetsList r).flatMap fun dx => (offsetsList r).map fun dy => (dx, dy)

/-- The integer scan radius used by `sense`:
`int(self.genome.get('SensoryRange', 1))` on a genome whose
`SensoryRange` key is present. -/
def senseRadius (g : Genome) : ℤ := truncInt g.SensoryRange

/-- Modelled from the spec (for the refinement claim about `sense`):
the scan radius the specification describes, `sensory_range` truncated
to an integer with a minimum of 1. -/
def senseRadiusSpec (g : Genome) : ℤ := max 1 (truncInt g.SensoryRange)

/-- `Organism.sense`: walk the scan window keeping the first strictly
best nutrient level (sentinel -1), recording the unit direction
`(sign dx, sign dy)`; if the resulting intent is `(0,0)`, substitute the
random fallback step `rnd`. `d0` is the incoming `(self.dx, self.dy)`
and the result is the outgoing one.  `senseStep` is one iteration of
the nested scan loop. -/
def senseStep (W : World) (x y : ℕ) (acc : ℚ × ℤ × ℤ) (p : ℤ × ℤ) : ℚ × ℤ × ℤ :=
  if p.1 = 0 ∧ p.2 = 0 then acc
  else
    let nx := (((x : ℤ) + p.1) % (W.width : ℤ)).toNat
    let ny := (((y : ℤ) + p.2) % (W.height : ℤ)).toNat
    if acc.1 < W.get_nutrient nx ny then (W.get_nutrient nx ny, p.1.sign, p.2.sign)
    else acc

def sense (W : World) (g : Genome) (x y : ℕ) (d0 : ℤ × ℤ) (rnd : ℤ × ℤ) : ℤ × ℤ :=
  let res := (sensePairs (senseRadius g)).foldl (senseStep W x y) (-1, d0.1, d0.2)
  if res.2.1 = 0 ∧ res.2.2 = 0 then rnd else res.2

/-- `Organism.move`: apply the intent with toroidal wrap, reset the
intent, pay the movement cost. -/
def Organism.move (W : World) (o : Organism) : Organism :=
  { o with x := (((o.x : ℤ) + o.dx) % (W.width : ℤ)).toNat,
           y := (((o.y : ℤ) + o.dy) % (W.height : ℤ)).toNat,
           dx := 0, dy := 0,
           energy := o.energy - o.genome.MovementCost }

/-- `Organism.eat`: consume `MetabolismRate * 10` nutrients at the
current cell and gain five times the amount actually consumed. -/
def Organism.eat (W : World) (o : Organism) : World × Organism :=
  let res := W.consume_nutrient o.x o.y (o.genome.MetabolismRate * 10)
  (res.2, { o with energy := o.energy + res.1 * 5 })

/-- `Organism.metabolize`: pay the base metabolic cost plus toxin damage
`max(0, toxin - resistance) * 10`. -/
def Organism.metabolize (W : World) (o : Organism) : Organism :=
  { o with energy := o.energy - o.genome.BaseMetabolism
             - max 0 (W.get_toxin o.x o.y - o.genome.ToxinBResistance) * 10 }

/-- `Organism.should_die`: `energy <= 0`. -/
def Organism.should_die (o : Organism) : Bool := decide (o.energy ≤ 0)

/-- `Organism.should_reproduce`: `energy >= REPRODUCTION_ENERGY`. -/
def Organism.should_reproduce (o : Organism) : Bool :=
  decide (REPRODUCTION_ENERGY ≤ o.energy)

/-- `Organism._mutate_genome`: deep-copy the lineage base genome and
scale every trait by its mutation factor `1 + uniform(-0.1, 0.1)`;
the drawn factors are the oracle `f`. -/
def mutate_genome (base : Genome) (f : Gene → ℚ) : Genome :=
  { MetabolismRate := base.MetabolismRate * f Gene.MetabolismRate,
    MovementCost := base.MovementCost * f Gene.MovementCost,
    BaseMetabolism := base.BaseMetabolism * f Gene.BaseMetabolism,
    SensoryRange := base.SensoryRange * f Gene.SensoryRange,
    ToxinBResistance := base.ToxinBResistance * f Gene.ToxinBResistance }

/-- `Organism.reproduce`: halve the parent's energy, mutate the lineage
base genome, and return (mutated parent, offspring); `ox`/`oy` are the
drawn offspring offsets in `{-1,0,1}`. -/
def Organism.reproduce (W : World) (o : Organism) (base : Genome)
    (f : Gene → ℚ) (ox oy : ℤ) : Organism × Organism :=
  let parent := { o with energy := o.energy / 2 }
  ( parent,
    { x := (((o.x : ℤ) + ox) % (W.width : ℤ)).toNat,
      y := (((o.y : ℤ) + oy) % (W.height : ℤ)).toNat,
      genome := mutate_genome base f,
      energy := parent.energy, dx := 0, dy := 0 } )

/-- The random draws one organism consumes during one simulation tick. -/
structure Rand where
  senseFallback : ℤ × ℤ
  mutFactors : Gene → ℚ
  offOff : ℤ × ℤ

/-- One organism's `sense(); move(); eat(); metabolize()` sequence from
the loop body of `run_simulation_steps`. -/
def liveStep (W : World) (o : Organism) (r : Rand) : World × Organism :=
  let d := sense W o.genome o.x o.y (o.dx, o.dy) r.senseFallback
  let o1 := Organism.move W { o with dx := d.1, dy := d.2 }
  let we := Organism.eat W o1
  (we.1, Organism.metabolize we.1 we.2)

/-- The whole per-organism loop body of `run_simulation_steps`: the live
step, then the reproduction check (reproduction halves the parent's
energy), then the death check on the possibly-halved parent.  Returns
the updated world, the organism's contribution to `survivors` and its
contribution to `new_offspring`. -/
def processAgent (base : Genome) (W : World) (o : Organism) (r : Rand) :
    World × List Organism × List Organism :=
  let wa := liveStep W o r
  let pc : Organism × List Organism :=
    if wa.2.should_reproduce then
      ((Organism.reproduce wa.1 wa.2 base r.mutFactors r.offOff.1 r.offOff.2).1,
       [(Organism.reproduce wa.1 wa.2 base r.mutFactors r.offOff.1 r.offOff.2).2])
    else (wa.2, [])
  (wa.1, if pc.1.should_die then [] else [pc.1], pc.2)

/-- The `for org in lineage.organisms` loop of one tick, threading the
world left to right and collecting `survivors` and `new_offspring`. -/
def tickAgents (base : Genome) : List (Organism × Rand) → World →
    World × List Organism × List Organism
  | [], W => (W, [], [])
  | (o, r) :: rest, W =>
    let pa := processAgent base W o r
    let tl := tickAgents base rest pa.1
    (tl.1, pa.2.1 ++ tl.2.1, pa.2.2 ++ tl.2.2)

/-- One simulation tick of `run_simulation_steps`:
`world.update_environment()` followed by the per-organism loop; the next
live set is `survivors + new_offspring`. -/
def simTick (base : Genome) (W : World) (pairs : List (Organism × Rand)) :
    World × List Organism :=
  let W1 := update_environment W
  let res := tickAgents base pairs W1
  (res.1, res.2.1 ++ res.2.2)

/-- `run_simulation_steps`: iterate `simTick`, stopping early when the
population is empty; `rnds n` supplies tick `n`'s random draws. -/
def run_simulation_steps (base : Genome) :
    ℕ → World → List Organism → (ℕ → List Rand) → World × List Organism
  | 0, W, orgs, _ => (W, orgs)
  | n + 1, W, orgs, rnds =>
    if orgs.isEmpty then (W, orgs)
    else
      let res := simTick base W (orgs.zip (rnds 0))
      run_simulation_steps base n res.1 res.2 fun k => rnds (k + 1)

/-- An organism as held by the lineage: Python passes genome
dictionaries by object reference, so the genome is an index into the
lineage's genome store rather than an inline value. -/
structure OrgRef where
  x : ℕ
  y : ℕ
  genomeRef : ℕ
  energy : ℚ
  deriving DecidableEq, Repr

/-- `PlayerLineage`: the store of genome dictionary objects, the index
of `base_genome` in it, the organism list and the evolutionary
potential currency. -/
structure PlayerLineage where
  store : List Genome
  base_ref : ℕ
  organisms : List OrgRef
  evolutionary_potential : ℚ
  deriving DecidableEq, Repr

/-- The genome dictionary an organism actually reads through its
reference. -/
def observedGenome (s : PlayerLineage) (o : OrgRef) : Genome :=
  s.store.getD o.genomeRef gZero

/-- The lineage's current `base_genome` dictionary. -/
def PlayerLineage.baseGenome (s : PlayerLineage) : Genome :=
  s.store.getD s.base_ref gZero

/-- `PlayerLineage.spawn_organisms`: append one organism per drawn
location, each built as `Organism(self.world, x, y, self.base_genome)`
— the genome argument is the base-genome object itself, so every
spawned organism's `genomeRef` is `base_ref`. -/
def spawn_organisms (s : PlayerLineage) (positions : List (ℕ × ℕ)) : PlayerLineage :=
  { s with organisms := s.organisms ++
      positions.map fun p => { x := p.1, y := p.2, genomeRef := s.base_ref, energy := 100 } }

/-- `PlayerLineage.__init__` with the drawn spawn locations: one genome
object in the store, 100 EP, then `spawn_organisms`. -/
def PlayerLineage.init (positions : List (ℕ × ℕ)) : PlayerLineage :=
  spawn_organisms
    { store := [baseGenomeDefault], base_ref := 0, organisms := [],
      evolutionary_potential := 100 }
    positions

/-- `PlayerLineage.evolve_gene`: if the EP balance covers the cost,
add `delta` to the trait of the base-genome object, deduct the cost,
and apply the `ToxinBResistance -> BaseMetabolism += 0.01` trade-off;
otherwise report failure and change nothing. -/
def PlayerLineage.evolve_gene (s : PlayerLineage) (gene : Gene) (delta cost : ℚ) :
    Bool × PlayerLineage :=
  if cost ≤ s.evolutionary_potential then
    let g := s.store.getD s.base_ref gZero
    let g1 := g.put gene (g.get gene + delta)
    let g2 :=
      if gene = Gene.ToxinBResistance then
        g1.put Gene.BaseMetabolism (g1.get Gene.BaseMetabolism + 1/100)
      else g1
    (true, { s with store := s.store.set s.base_ref g2,
                    evolutionary_potential := s.evolutionary_potential - cost })
  else (false, s)

/-! ## Helper lemmas -/

theorem getD_set_self {α : Type} (l : List α) (i : ℕ) (a d : α) (h : i < l.length) :
    (l.set i a).getD i d = a := by
  induction l generalizing i with
  | nil => simp at h
  | cons hd tl ih =>
    cases i with
    | zero => rfl
    | succ n => simpa using ih n (by simpa using h)

/-! ## Claim theorems -/

/-- C4: `consume_nutrient(x, y, amount)` returns exactly
`min(current, amount)`, decreases the cell by exactly the returned
value, and (given cell and amount nonnegative) never leaves the cell
below 0. -/
theorem consume_nutrient_exact (W : World) (x y : ℕ) (amount : ℚ)
    (hc : 0 ≤ W.nutrient_a x y) (ha : 0 ≤ amount) :
    (W.consume_nutrient x y amount).1 = min (W.nutrient_a x y) amount ∧
    ((W.consume_nutrient x y amount).2).nutrient_a x y =
      W.nutrient_a x y - (W.consume_nutrient x y amount).1 ∧
    0 ≤ ((W.consume_nutrient x y amount).2).nutrient_a x y := by
  refine ⟨rfl, ?_, ?_⟩
  · simp [World.consume_nutrient, setCell]
  · simp only [World.consume_nutrient, setCell]
    simp only [and_self, if_true, reduceIte]
    have := min_le_left (W.nutrient_a x y) amount
    linarith

/-- Witness for C4 at a concrete world, cell and amount. -/
theorem consume_nutrient_exact_witness :
    (Wtest.consume_nutrient 1 1 3).1 = min (Wtest.nutrient_a 1 1) 3 ∧
    ((Wtest.consume_nutrient 1 1 3).2).nutrient_a 1 1 =
      Wtest.nutrient_a 1 1 - (Wtest.consume_nutrient 1 1 3).1 ∧
    0 ≤ ((Wtest.consume_nutrient 1 1 3).2).nutrient_a 1 1 :=
  consume_nutrient_exact Wtest 1 1 3 (by norm_num [Wtest]) (by norm_num)

/-- C5: `evolve_gene` with a cost exceeding the current EP balance
returns failure and leaves the whole lineage state (reference genome,
organisms, balance) unchanged. -/
theorem evolve_gene_insufficient_noop (s : PlayerLineage) (gene : Gene) (delta cost : ℚ)
    (h : s.evolutionary_potential < cost) :
    s.evolve_gene gene delta cost = (false, s) := by
  simp [PlayerLineage.evolve_gene, not_le.mpr h]

/-- Witness for C5 on the freshly initialised lineage (EP = 100) and
cost 200. -/
theorem evolve_gene_insufficient_noop_witness :
    (PlayerLineage.init [(0, 0)]).evolve_gene Gene.MetabolismRate 1 200 =
      (false, PlayerLineage.init [(0, 0)]) :=
  evolve_gene_insufficient_noop (PlayerLineage.init [(0, 0)]) Gene.MetabolismRate 1 200
    (by norm_num [PlayerLineage.init, spawn_organisms])

/-- C6: with sufficient balance, `evolve_gene(ToxinBResistance, delta,
cost)` succeeds, adds `delta` to `ToxinBResistance`, deducts `cost`
from the balance, adds exactly 0.01 to `BaseMetabolism`, and leaves the
other three traits unchanged. -/
theorem evolve_gene_toxin_tradeoff (s : PlayerLineage) (delta cost : ℚ)
    (hlen : s.base_ref < s.store.length)
    (h : cost ≤ s.evolutionary_potential) :
    (s.evolve_gene Gene.ToxinBResistance delta cost).1 = true ∧
    ((s.evolve_gene Gene.ToxinBResistance delta cost).2).baseGenome.ToxinBResistance =
      s.baseGenome.ToxinBResistance + delta ∧
    ((s.evolve_gene Gene.ToxinBResistance delta cost).2).evolutionary_potential =
      s.evolutionary_potential - cost ∧
    ((s.evolve_gene Gene.ToxinBResistance delta cost).2).baseGenome.BaseMetabolism =
      s.baseGenome.BaseMetabolism + 1/100 ∧
    ((s.evolve_gene Gene.ToxinBResistance delta cost).2).baseGenome.MetabolismRate =
      s.baseGenome.MetabolismRate ∧
    ((s.evolve_gene Gene.ToxinBResistance delta cost).2).baseGenome.MovementCost =
      s.baseGenome.MovementCost ∧
    ((s.evolve_gene Gene.ToxinBResistance delta cost).2).baseGenome.SensoryRange =
      s.baseGenome.SensoryRange := by
  simp only [PlayerLineage.evolve_gene, if_pos h, reduceIte, PlayerLineage.baseGenome]
  rw [getD_set_self _ _ _ _ hlen]
  simp [Genome.put, Genome.get]

/-- Witness for C6 on the freshly initialised lineage (EP = 100),
delta 0.05, cost 60. -/
theorem evolve_gene_toxin_tradeoff_witness :
    ((PlayerLineage.init [(0, 0)]).evolve_gene Gene.ToxinBResistance (1/20) 60).1 = true ∧
    (((PlayerLineage.init [(0, 0)]).evolve_gene Gene.ToxinBResistance (1/20) 60).2).baseGenome.ToxinBResistance =
      (PlayerLineage.init [(0, 0)]).baseGenome.ToxinBResistance + 1/20 ∧
    (((PlayerLineage.init [(0, 0)]).evolve_gene Gene.ToxinBResistance (1/20) 60).2).evolutionary_potential =
      (PlayerLineage.init [(0, 0)]).evolutionary_potential - 60 ∧
    (((PlayerLineage.init [(0, 0)]).evolve_gene Gene.ToxinBResistance (1/20) 60).2).baseGenome.BaseMetabolism =
      (PlayerLineage.init [(0, 0)]).baseGenome.BaseMetabolism + 1/100 ∧
    (((PlayerLineage.init [(0, 0)]).evolve_gene Gene.ToxinBResistance (1/20) 60).2).baseGenome.MetabolismRate =
      (PlayerLineage.init [(0, 0)]).baseGenome.MetabolismRate ∧
    (((PlayerLineage.init [(0, 0)]).evolve_gene Gene.ToxinBResistance (1/20) 60).2).baseGenome.MovementCost =
      (PlayerLineage.init [(0, 0)]).baseGenome.MovementCost ∧
    (((PlayerLineage.init [(0, 0)]).evolve_gene Gene.ToxinBResistance (1/20) 60).2).baseGenome.SensoryRange =
      (PlayerLineage.init [(0, 0)]).baseGenome.SensoryRange :=
  evolve_gene_toxin_tradeoff (PlayerLineage.init [(0, 0)]) (1/20) 60
    (by norm_num [PlayerLineage.init, spawn_organisms])
    (by norm_num [PlayerLineage.init, spawn_organisms])

/-- C8: `reproduce()` leaves the parent with half its energy and gives
the offspring exactly that same halved energy. -/
theorem reproduce_splits_energy_evenly (W : World) (o : Organism) (base : Genome)
    (f : Gene → ℚ) (ox oy : ℤ) :
    ((o.reproduce W base f ox oy).1).energy = o.energy / 2 ∧
    ((o.reproduce W base f ox oy).2).energy = o.energy / 2 :=
  ⟨rfl, rfl⟩

/-- C9: every offspring trait equals the corresponding reference trait
times its drawn factor, and when all factors lie in [0.9, 1.1] each
offspring trait lies within 10 percent of the reference trait. -/
theorem offspring_within_ten_percent (base : Genome) (f : Gene → ℚ)
    (hf : ∀ t, 9/10 ≤ f t ∧ f t ≤ 11/10) (t : Gene) :
    (mutate_genome base f).get t = base.get t * f t ∧
    |(mutate_genome base f).get t - base.get t| ≤ (1/10) * |base.get t| := by
  have h1 : (mutate_genome base f).get t = base.get t * f t := by
    cases t <;> rfl
  refine ⟨h1, ?_⟩
  rw [h1]
  have h2 := hf t
  have h3 : base.get t * f t - base.get t = base.get t * (f t - 1) := by ring
  rw [h3, abs_mul, mul_comm]
  refine mul_le_mul_of_nonneg_right ?_ (abs_nonneg _)
  rw [abs_le]
  constructor <;> linarith [h2.1, h2.2]

/-- Witness for C9 with factors all 1 and the default base genome. -/
theorem offspring_within_ten_percent_witness :
    (mutate_genome baseGenomeDefault fun _ => 1).get Gene.SensoryRange =
      baseGenomeDefault.get Gene.SensoryRange * (fun _ : Gene => (1 : ℚ)) Gene.SensoryRange ∧
    |(mutate_genome baseGenomeDefault fun _ => 1).get Gene.SensoryRange -
        baseGenomeDefault.get Gene.SensoryRange| ≤
      (1/10) * |baseGenomeDefault.get Gene.SensoryRange| :=
  offspring_within_ten_percent baseGenomeDefault (fun _ => 1)
    (fun t => by norm_num) Gene.SensoryRange

/-- The lineage state right after `PlayerLineage(world)` spawned a
single organism at (0, 0). -/
def sAlias : PlayerLineage := PlayerLineage.init [(0, 0)]

/-- The one organism spawned in `sAlias`: it holds a reference to the
base-genome object (store index 0), not a copy. -/
def oAlias : OrgRef := { x := 0, y := 0, genomeRef := 0, energy := 100 }

/-- C1 (code bug evidence): the genome a spawned agent reads changes
when `evolve_gene` modifies the reference genome, because
`spawn_organisms` passes the `base_genome` dictionary itself instead of
a copy: after `evolve_gene('SensoryRange', 1, 0)` the spawned agent's
own `SensoryRange` jumps from 1 to 2. -/
theorem spawned_agent_observes_evolve_gene :
    sAlias.organisms = [oAlias] ∧
    oAlias.genomeRef = sAlias.base_ref ∧
    (observedGenome sAlias oAlias).SensoryRange = 1 ∧
    (sAlias.evolve_gene Gene.SensoryRange 1 0).1 = true ∧
    (observedGenome (sAlias.evolve_gene Gene.SensoryRange 1 0).2 oAlias).SensoryRange = 2 := by
  refine ⟨rfl, rfl, rfl, ?_, ?_⟩ <;>
    norm_num [sAlias, oAlias, PlayerLineage.init, spawn_organisms, PlayerLineage.evolve_gene,
      observedGenome, baseGenomeDefault, Genome.put, Genome.get] <;> rfl

/-- C7 (amended with a nonnegative configured amount): immediately
after `update()`, the nutrient level at the source cell equals the
configured amount, halved under `ice_age`. -/
theorem source_repinned_after_update (W : World) (ha : 0 ≤ W.nutrient_amount) :
    (update_environment W).nutrient_a W.nutrient_source_pos.1 W.nutrient_source_pos.2 =
      if W.active_event = some WEvent.ice_age then W.nutrient_amount / 2
      else W.nutrient_amount := by
  unfold update_environment
  cases hev : W.active_event with
  | none => simp [nutrientAfter, clipGrid, setCell, max_eq_right ha]
  | some e =>
    cases e <;> simp [nutrientAfter, clipGrid, setCell, max_eq_right ha]

/-- Witness for C7 at a concrete world with source amount 10. -/
theorem source_repinned_after_update_witness :
    (update_environment Wtest).nutrient_a Wtest.nutrient_source_pos.1
        Wtest.nutrient_source_pos.2 =
      if Wtest.active_event = some WEvent.ice_age then Wtest.nutrient_amount / 2
      else Wtest.nutrient_amount :=
  source_repinned_after_update Wtest (by norm_num [Wtest])

/-- A world whose configured source amount is negative while all grid
cells are 0: a state the `World` constructor admits directly. -/
def WnegAmt : World :=
  { width := 3, height := 3, diffusion_rate := 0,
    nutrient_a := fun _ _ => 0, nutrient_source_pos := (1, 1),
    nutrient_amount := -1, active_event := none, toxin_grid := fun _ _ => 0 }

/-- C7 counterexample: with a negative configured amount and no event,
the clip step forces the source cell to 0, not to the configured
amount, so the claim as stated fails. -/
theorem source_repin_counterexample :
    WnegAmt.active_event ≠ some WEvent.ice_age ∧
    (update_environment WnegAmt).nutrient_a WnegAmt.nutrient_source_pos.1
        WnegAmt.nutrient_source_pos.2 ≠ WnegAmt.nutrient_amount := by
  constructor
  · simp [WnegAmt]
  · norm_num [update_environment, WnegAmt, nutrientAfter, World.anyToxin, diffuse,
      setCell, clipGrid]

theorem nutrientAfter_nonneg (W : World) (x y : ℕ) : 0 ≤ nutrientAfter W x y :=
  le_max_left 0 _

theorem toxinAfter_nonneg (W : World)
    (ht : ∀ x < W.width, ∀ y < W.height, 0 ≤ W.toxin_grid x y)
    (x : ℕ) (hx : x < W.width) (y : ℕ) (hy : y < W.height) :
    0 ≤ toxinAfter W x y := by
  unfold toxinAfter
  split
  · exact le_max_left 0 _
  · exact ht x hx y hy

theorem update_environment_preserves (W : World) :
    (update_environment W).width = W.width ∧
    (update_environment W).height = W.height ∧
    (update_environment W).diffusion_rate = W.diffusion_rate ∧
    (update_environment W).nutrient_source_pos = W.nutrient_source_pos ∧
    (update_environment W).nutrient_amount = W.nutrient_amount ∧
    (update_environment W).active_event = W.active_event := by
  unfold update_environment
  cases hev : W.active_event with
  | none => exact ⟨rfl, rfl, rfl, rfl, rfl, rfl⟩
  | some e => cases e <;> exact ⟨rfl, rfl, rfl, rfl, rfl, rfl⟩

theorem update_environment_nonneg (W : World)
    (ht : ∀ x < W.width, ∀ y < W.height, 0 ≤ W.toxin_grid x y)
    (ha : 0 ≤ W.nutrient_amount) :
    (∀ x < W.width, ∀ y < W.height, 0 ≤ (update_environment W).nutrient_a x y) ∧
    (∀ x < W.width, ∀ y < W.height, 0 ≤ (update_environment W).toxin_grid x y) := by
  constructor
  · intro x hx y hy
    unfold update_environment
    cases hev : W.active_event with
    | none => exact nutrientAfter_nonneg W x y
    | some e =>
      cases e with
      | acid_rain => exact nutrientAfter_nonneg W x y
      | ice_age =>
        show 0 ≤ setCell (nutrientAfter W) W.nutrient_source_pos (W.nutrient_amount / 2) x y
        unfold setCell
        split
        · linarith
        · exact nutrientAfter_nonneg W x y
      | nutrient_bloom => exact nutrientAfter_nonneg W x y
  · intro x hx y hy
    unfold update_environment
    cases hev : W.active_event with
    | none => exact toxinAfter_nonneg W ht x hx y hy
    | some e =>
      cases e with
      | acid_rain =>
        have := toxinAfter_nonneg W ht x hx y hy
        show 0 ≤ toxinAfter W x y + 1/200
        linarith
      | ice_age => exact toxinAfter_nonneg W ht x hx y hy
      | nutrient_bloom => exact toxinAfter_nonneg W ht x hx y hy

/-- C3 (amended with a nonnegative configured source amount): starting
from nonnegative grids, with any diffusion rate in [0, 1] and any
active event, every in-bounds cell of both grids is nonnegative after
any number of `update()` calls. -/
theorem grids_stay_nonneg (W : World)
    (hn : ∀ x < W.width, ∀ y < W.height, 0 ≤ W.nutrient_a x y)
    (ht : ∀ x < W.width, ∀ y < W.height, 0 ≤ W.toxin_grid x y)
    (hr0 : 0 ≤ W.diffusion_rate) (hr1 : W.diffusion_rate ≤ 1)
    (ha : 0 ≤ W.nutrient_amount) (n : ℕ) :
    ∀ x < W.width, ∀ y < W.height,
      0 ≤ (update_environment^[n] W).nutrient_a x y ∧
      0 ≤ (update_environment^[n] W).toxin_grid x y := by
  induction n generalizing W with
  | zero =>
    intro x hx y hy
    exact ⟨hn x hx y hy, ht x hx y hy⟩
  | succ n ih =>
    intro x hx y hy
    rw [Function.iterate_succ_apply]
    have hw := update_environment_preserves W
    have hp := update_environment_nonneg W ht ha
    refine ih (update_environment W) ?_ ?_ ?_ ?_ ?_ x ?_ y ?_
    · rw [hw.1, hw.2.1]; exact hp.1
    · rw [hw.1, hw.2.1]; exact hp.2
    · rw [hw.2.2.1]; exact hr0
    · rw [hw.2.2.1]; exact hr1
    · rw [hw.2.2.2.2.1]; exact ha
    · rw [hw.1]; exact hx
    · rw [hw.2.1]; exact hy

/-- Witness for C3 at a concrete world after one update. -/
theorem grids_stay_nonneg_witness :
    0 ≤ (update_environment^[1] Wtest).nutrient_a 1 1 ∧
    0 ≤ (update_environment^[1] Wtest).toxin_grid 1 1 :=
  grids_stay_nonneg Wtest
    (by intro x hx y hy; dsimp [Wtest]; split <;> norm_num)
    (by intro x hx y hy; norm_num [Wtest])
    (by norm_num [Wtest]) (by norm_num [Wtest]) (by norm_num [Wtest])
    1 1 (by norm_num [Wtest]) 1 (by norm_num [Wtest])

/-- `WnegAmt` under an ice age: all cells are nonnegative and the
diffusion rate is in [0, 1]. -/
def WnegIce : World := { WnegAmt with active_event := some WEvent.ice_age }

/-- C3 counterexample: with a negative configured source amount (a
state the `World` constructor admits) and an ice-age event, one
`update()` writes `amount / 2 < 0` into the source cell after the
clip, so the claim as stated (quantifying only over cell values and the
diffusion rate) fails. -/
theorem grids_nonneg_counterexample :
    (∀ x < WnegIce.width, ∀ y < WnegIce.height, 0 ≤ WnegIce.nutrient_a x y) ∧
    (∀ x < WnegIce.width, ∀ y < WnegIce.height, 0 ≤ WnegIce.toxin_grid x y) ∧
    0 ≤ WnegIce.diffusion_rate ∧ WnegIce.diffusion_rate ≤ 1 ∧
    ¬ 0 ≤ (update_environment^[1] WnegIce).nutrient_a 1 1 := by
  refine ⟨?_, ?_, ?_, ?_, ?_⟩
  · intro x hx y hy; norm_num [WnegIce, WnegAmt]
  · intro x hx y hy; norm_num [WnegIce, WnegAmt]
  · norm_num [WnegIce, WnegAmt]
  · norm_num [WnegIce, WnegAmt]
  · norm_num [update_environment, WnegIce, WnegAmt, nutrientAfter, World.anyToxin,
      diffuse, setCell, clipGrid]

theorem mem_offsetsList (r a : ℤ) : a ∈ offsetsList r ↔ -r ≤ a ∧ a ≤ r := by
  unfold offsetsList
  rw [List.mem_map]
  constructor
  · rintro ⟨i, hi, rfl⟩
    rw [List.mem_range] at hi
    have hi2 : (i : ℤ) < r + r + 1 := Int.lt_toNat.mp hi
    omega
  · rintro ⟨h1, h2⟩
    refine ⟨(a + r).toNat, ?_, ?_⟩
    · rw [List.mem_range, Int.lt_toNat, Int.toNat_of_nonneg (by omega)]
      omega
    · rw [Int.toNat_of_nonneg (by omega)]
      omega

theorem mem_sensePairs (r : ℤ) (p : ℤ × ℤ) :
    p ∈ sensePairs r ↔ (-r ≤ p.1 ∧ p.1 ≤ r) ∧ (-r ≤ p.2 ∧ p.2 ≤ r) := by
  unfold sensePairs
  simp only [List.mem_flatMap, List.mem_map]
  constructor
  · rintro ⟨dx, hdx, dy, hdy, rfl⟩
    exact ⟨(mem_offsetsList r dx).mp hdx, (mem_offsetsList r dy).mp hdy⟩
  · rintro ⟨h1, h2⟩
    exact ⟨p.1, (mem_offsetsList r p.1).mpr h1, p.2, (mem_offsetsList r p.2).mpr h2, rfl⟩

theorem foldl_senseStep_skip (W : World) (x y : ℕ) (l : List (ℤ × ℤ))
    (hl : ∀ p ∈ l, p.1 = 0 ∧ p.2 = 0) (acc : ℚ × ℤ × ℤ) :
    l.foldl (senseStep W x y) acc = acc := by
  induction l generalizing acc with
  | nil => rfl
  | cons hd tl ih =>
    rw [List.foldl_cons]
    have hhd := hl hd (List.mem_cons_self hd tl)
    rw [senseStep, if_pos hhd]
    exact ih (fun p hp => hl p (List.mem_cons_of_mem hd hp)) acc

theorem truncInt_nonpos_of_lt_one {q : ℚ} (h : q < 1) : truncInt q ≤ 0 := by
  unfold truncInt
  split
  · have : ⌊q⌋ < 1 := Int.floor_lt.mpr (by exact_mod_cast h)
    omega
  · rename_i hq
    exact Int.ceil_le.mpr (by push_neg at hq; exact_mod_cast hq.le)

/-- C2 (amended): `sense` scans exactly the Chebyshev window of radius
`int(SensoryRange)` with no minimum applied (the constant 1 in the code
is only the dictionary-lookup default for an absent key); any trait
value below 1 truncates to a radius of at most 0, and with radius at
most 0 nothing is scanned, so the movement intent is exactly the random
fallback step. -/
theorem sense_scan_radius_no_minimum (W : World) (g : Genome) (x y : ℕ) (rnd : ℤ × ℤ) :
    (∀ p : ℤ × ℤ, p ∈ sensePairs (senseRadius g) ↔
        (-senseRadius g ≤ p.1 ∧ p.1 ≤ senseRadius g) ∧
        (-senseRadius g ≤ p.2 ∧ p.2 ≤ senseRadius g)) ∧
    (g.SensoryRange < 1 → senseRadius g ≤ 0) ∧
    (senseRadius g ≤ 0 → sense W g x y (0, 0) rnd = rnd) := by
  refine ⟨fun p => mem_sensePairs (senseRadius g) p, truncInt_nonpos_of_lt_one, fun hr => ?_⟩
  unfold sense
  rw [foldl_senseStep_skip W x y _ ?_ _]
  · rfl
  · intro p hp
    have := (mem_sensePairs (senseRadius g) p).mp hp
    omega

/-- Witness for C2 with `SensoryRange = 1/2`: the radius truncates to
0 and `sense` returns the fallback step. -/
theorem sense_scan_radius_no_minimum_witness :
    sense Wtest { baseGenomeDefault with SensoryRange := 1/2 } 0 0 (0, 0) (9, 9) = (9, 9) :=
  (sense_scan_radius_no_minimum Wtest { baseGenomeDefault with SensoryRange := 1/2 }
      0 0 (9, 9)).2.2
    (by norm_num [senseRadius, truncInt, baseGenomeDefault])

/-- A genome whose `SensoryRange` trait is 1/2 (below 1). -/
def gHalf : Genome := { baseGenomeDefault with SensoryRange := 1/2 }

/-- C2 counterexample: for `SensoryRange = 1/2` the scan radius the
code uses is `int(0.5) = 0` — the loop window collapses to the skipped
zero offset — while the claimed radius (truncation with minimum 1) is
1, and `sense` returns the random fallback even though neighbours with
nutrients exist at Chebyshev distance 1. -/
theorem sense_radius_counterexample :
    senseRadius gHalf = 0 ∧
    senseRadiusSpec gHalf = 1 ∧
    senseRadius gHalf ≠ senseRadiusSpec gHalf ∧
    sensePairs (senseRadius gHalf) = [(0, 0)] ∧
    sense Wtest gHalf 0 0 (0, 0) (9, 9) = (9, 9) := by
  have h0 : senseRadius gHalf = 0 := by
    norm_num [senseRadius, truncInt, gHalf, baseGenomeDefault]
  have h1 : senseRadiusSpec gHalf = 1 := by
    norm_num [senseRadiusSpec, truncInt, gHalf, baseGenomeDefault]
  refine ⟨h0, h1, ?_, ?_, ?_⟩
  · rw [h0, h1]; decide
  · rw [h0]; rfl
  · unfold sense
    rw [h0]
    rfl

theorem tickAgents_append (base : Genome) (l1 l2 : List (Organism × Rand)) (W : World) :
    tickAgents base (l1 ++ l2) W =
      ((tickAgents base l2 (tickAgents base l1 W).1).1,
       (tickAgents base l1 W).2.1 ++ (tickAgents base l2 (tickAgents base l1 W).1).2.1,
       (tickAgents base l1 W).2.2 ++ (tickAgents base l2 (tickAgents base l1 W).1).2.2) := by
  induction l1 generalizing W with
  | nil => simp [tickAgents]
  | cons hd tl ih =>
    obtain ⟨o1, r1⟩ := hd
    simp only [List.cons_append, tickAgents, List.append_eq, ih, List.append_assoc]

/-- C10: in one simulation tick, an agent whose post-eat/metabolize
energy passes the reproduction threshold ends the tick with half that
energy (at least 75, hence positive), is not marked dead, and lands in
the next live set together with its offspring. -/
theorem reproducing_agent_survives_tick (base : Genome) (W W1 : World)
    (pre post : List (Organism × Rand)) (o : Organism) (r : Rand) (a p c : Organism)
    (hW1 : (tickAgents base pre (update_environment W)).1 = W1)
    (ha : (liveStep W1 o r).2 = a)
    (hp : (Organism.reproduce (liveStep W1 o r).1 a base r.mutFactors r.offOff.1
      r.offOff.2).1 = p)
    (hc : (Organism.reproduce (liveStep W1 o r).1 a base r.mutFactors r.offOff.1
      r.offOff.2).2 = c)
    (hrep : a.should_reproduce = true) :
    75 ≤ p.energy ∧ p.should_die = false ∧
    p ∈ (simTick base W (pre ++ (o, r) :: post)).2 ∧
    c ∈ (simTick base W (pre ++ (o, r) :: post)).2 := by
  have h150 : (150 : ℚ) ≤ a.energy := by
    simpa [Organism.should_reproduce, REPRODUCTION_ENERGY] using hrep
  have hpE : p.energy = a.energy / 2 := by rw [← hp]; rfl
  have h75 : 75 ≤ p.energy := by rw [hpE]; linarith
  have hdie : p.should_die = false := by
    simp only [Organism.should_die, decide_eq_false_iff_not, not_le, hpE]
    linarith
  have hpa : processAgent base W1 o r = ((liveStep W1 o r).1, [p], [c]) := by
    simp [processAgent, ha, hrep, hp, hc, hdie]
  have hsim : (simTick base W (pre ++ (o, r) :: post)).2 =
      ((tickAgents base pre (update_environment W)).2.1 ++
        ([p] ++ (tickAgents base post (liveStep W1 o r).1).2.1)) ++
      ((tickAgents base pre (update_environment W)).2.2 ++
        ([c] ++ (tickAgents base post (liveStep W1 o r).1).2.2)) := by
    simp only [simTick, tickAgents_append, tickAgents, hW1, hpa]
  refine ⟨h75, hdie, ?_, ?_⟩ <;> rw [hsim] <;> simp

/-- An all-zero 3x3 world for the C10 witness. -/
def Wzero : World :=
  { width := 3, height := 3, diffusion_rate := 0, nutrient_a := fun _ _ => 0,
    nutrient_source_pos := (1, 1), nutrient_amount := 0, active_event := none,
    toxin_grid := fun _ _ => 0 }

/-- A parent organism with energy 200 for the C10 witness. -/
def oRep : Organism :=
  { x := 0, y := 0, genome := baseGenomeDefault, energy := 200, dx := 0, dy := 0 }

/-- Fixed random draws for the C10 witness. -/
def rRep : Rand := { senseFallback := (0, 0), mutFactors := fun _ => 1, offOff := (1, 0) }

def W1Rep : World := update_environment Wzero

def aRep : Organism := (liveStep W1Rep oRep rRep).2

def pRep : Organism :=
  (Organism.reproduce (liveStep W1Rep oRep rRep).1 aRep baseGenomeDefault
    rRep.mutFactors rRep.offOff.1 rRep.offOff.2).1

def cRep : Organism :=
  (Organism.reproduce (liveStep W1Rep oRep rRep).1 aRep baseGenomeDefault
    rRep.mutFactors rRep.offOff.1 rRep.offOff.2).2

set_option maxRecDepth 8000 in
/-- Witness for C10 on a concrete tick with a single organism. -/
theorem reproducing_agent_survives_tick_witness :
    75 ≤ pRep.energy ∧ pRep.should_die = false ∧
    pRep ∈ (simTick baseGenomeDefault Wzero [(oRep, rRep)]).2 ∧
    cRep ∈ (simTick baseGenomeDefault Wzero [(oRep, rRep)]).2 :=
  reproducing_agent_survives_tick baseGenomeDefault Wzero W1Rep [] [] oRep rRep
    aRep pRep cRep rfl rfl rfl rfl
    (by norm_num [aRep, W1Rep, liveStep, update_environment, nutrientAfter, toxinAfter,
      World.anyToxin, diffuse, setCell, clipGrid, sense, senseStep, sensePairs, offsetsList,
      senseRadius, truncInt, Organism.move, Organism.eat, Organism.metabolize,
      World.consume_nutrient, World.get_nutrient, World.get_toxin,
      Organism.should_reproduce, REPRODUCTION_ENERGY, Wzero, oRep, rRep, baseGenomeDefault,
      List.range_succ])

end Primordia
